import Mathlib

/-!
Verification of the MusicForge batch-transcoding core against its
natural-language specification.

The development shallowly embeds the relevant Python source files:
  * `musicforge_pro/core.py`   — `ProcessingSettings`, `AudioProcessor`
    (`build_filters`, `measure_loudness`, `process_file`,
    `_process_file_original`), JSON persistence;
  * `ffmpeg_runner_improved.py` — `run_ffmpeg` (progress parsing,
    cancellation, result triple);
  * `settings_validator.py`    — `validate_settings`;
  * `musicforge_pro/gui.py`    — `_dispatcher` worker-count logic and the
    `_run_one` pre-flight guards / terminal-status mapping.

Python `float` values are modelled by exact decimals (`Dec`): every numeric
literal that flows through the code here is a short decimal, and CPython's
`repr`/`float` round-trips shortest decimal forms exactly, so decimal
arithmetic and printing coincide with the source's behaviour on the inputs
in scope.  Machine-level float rounding is never exercised by the claims.

Python strings manipulated by the code (protocol lines, blobs, messages)
are embedded as `List Char`, with the handful of `str` methods the source
uses (`strip`, `split` on a one-character separator, `startswith`,
`endswith`, `in`, `lower`, `upper`) implemented structurally below so that
every definition evaluates on concrete inputs.
-/

/-- Python whitespace, as stripped by `str.strip()`. -/
def isPySpace (c : Char) : Bool :=
  c = ' ' ∨ c = '\t' ∨ c = '\n' ∨ c = '\r' ∨
  c = Char.ofNat 11 ∨ c = Char.ofNat 12

/-- `str.strip()`. -/
def pyStrip (s : List Char) : List Char :=
  ((s.dropWhile isPySpace).reverse.dropWhile isPySpace).reverse

/-- Worker for `pySplit`. -/
def pySplitAux (sep : Char) : List Char → List Char → List (List Char)
  | [], acc => [acc.reverse]
  | c :: cs, acc =>
      if c = sep then acc.reverse :: pySplitAux sep cs []
      else pySplitAux sep cs (c :: acc)

/-- `str.split(sep)` for a one-character separator (the only kind the
embedded code splits on). -/
def pySplit (sep : Char) (s : List Char) : List (List Char) :=
  pySplitAux sep s []

/-- `s.startswith(pre)` (first argument is the pattern). -/
def pyStarts : List Char → List Char → Bool
  | [], _ => true
  | _ :: _, [] => false
  | p :: ps, c :: cs => p = c && pyStarts ps cs

/-- `needle in s` (substring containment). -/
def pySub (needle : List Char) : List Char → Bool
  | [] => needle.isEmpty
  | c :: cs => pyStarts needle (c :: cs) || pySub needle cs

/-- `s.endswith(suf)` (first argument is the pattern). -/
def pyEnds (suf s : List Char) : Bool := pyStarts suf.reverse s.reverse

/-- `str.lower()` (ASCII, as used by the code). -/
def pyLower (s : List Char) : List Char := s.map Char.toLower

/-- `str.upper()` (ASCII, as used by the code). -/
def pyUpper (s : List Char) : List Char := s.map Char.toUpper

/-- An exact decimal `m / 10^e`, modelling a Python `float` whose value is a
short decimal (the only kind produced and consumed by the code under
study).  `Dec.print` mirrors CPython `repr` on such values. -/
structure Dec where
  m : Int
  e : Nat
deriving DecidableEq, Repr

/-- Rational value of a decimal. -/
def Dec.toRat (d : Dec) : ℚ := (d.m : ℚ) / ((10 : ℚ) ^ d.e)

/-- Value of a list of ASCII digit characters. -/
def digitsToNat (cs : List Char) : Nat :=
  cs.foldl (fun a c => a * 10 + (c.toNat - 48)) 0

/-- CPython `repr` of the float denoted by a `Dec` (shortest decimal form,
always with a decimal point, as Python prints floats).  Matches Python
output for every decimal that round-trips through `float`, which covers the
values appearing in this code base. -/
def Dec.printChars (d : Dec) : List Char :=
  let sign : List Char := if d.m < 0 then [('-')] else []
  let digits := (toString d.m.natAbs).data
  if d.e = 0 then sign ++ digits ++ ('.') :: [('0')]
  else
    let digits :=
      if digits.length ≤ d.e then
        List.replicate (d.e + 1 - digits.length) '0' ++ digits
      else digits
    sign ++ digits.take (digits.length - d.e) ++
      ('.') :: digits.drop (digits.length - d.e)

/-- `Dec.printChars`, packaged as a `String` for message building. -/
def Dec.print (d : Dec) : String := String.mk d.printChars

/-- Python `float(str)` on plain decimal strings (optional sign and
whitespace, digits, optional fraction).  Exponent forms, `inf`/`nan` and
underscores are outside the protocol the engine emits and are not
modelled; on those this returns `none` like a parse failure. -/
def Dec.parse (s : List Char) : Option Dec :=
  let t := pyStrip s
  let (neg, body) :=
    match t with
    | '-' :: rest => (true, rest)
    | '+' :: rest => (false, rest)
    | _ => (false, t)
  match pySplit ('.') body with
  | [ip] =>
      if ip ≠ [] ∧ ip.all Char.isDigit then
        some ⟨(if neg then -1 else 1) * (digitsToNat ip : Int), 0⟩
      else none
  | [ip, fp] =>
      if (ip ≠ [] ∨ fp ≠ []) ∧ ip.all Char.isDigit ∧ fp.all Char.isDigit then
        some ⟨(if neg then -1 else 1) * (digitsToNat (ip ++ fp) : Int),
              fp.length⟩
      else none
  | _ => none

/-- Python `int(str)` on plain decimal strings (optional sign and
surrounding whitespace; underscores are outside the inputs in scope). -/
def parsePyInt (s : List Char) : Option Int :=
  match pyStrip s with
  | '-' :: body =>
      if body ≠ [] ∧ body.all Char.isDigit then
        some (-(digitsToNat body : Int))
      else none
  | '+' :: body =>
      if body ≠ [] ∧ body.all Char.isDigit then
        some (digitsToNat body : Int)
      else none
  | body =>
      if body ≠ [] ∧ body.all Char.isDigit then
        some (digitsToNat body : Int)
      else none

/-- `core.py` `ProcessingStatus` enum. -/
inductive ProcessingStatus where
  | queued
  | processing
  | completed
  | skipped
  | failed
deriving DecidableEq, Repr

/-- `core.py` `MetadataTemplate` dataclass (defaults as in the source). -/
structure MetadataTemplate where
  artist : String := ""
  title : String := "{stem}"
  album : String := ""
  year : String := ""
  genre : String := ""
  comment : String := ""
deriving DecidableEq, Repr

/-- `core.py` `ProcessingSettings` dataclass (defaults as in the source).
Python `float` fields are `Dec`, `int` fields are `Int`. -/
structure ProcessingSettings where
  output_format : String := "wav"
  quality : String := "V2"
  bit_depth : Int := 16
  sample_rate : Int := 48000
  channels : Int := 2
  normalize_loudness : Bool := false
  normalize_mode : String := "one-pass"
  target_i : Dec := ⟨-160, 1⟩
  target_tp : Dec := ⟨-15, 1⟩
  target_lra : Dec := ⟨110, 1⟩
  fade_in_sec : Dec := ⟨0, 1⟩
  fade_out_sec : Dec := ⟨0, 1⟩
  overwrite_existing : Bool := false
  output_directory : Option String := none
  parallelism : Int := 1
  filename_template : String := "{stem}.{ext}"
  metadata : MetadataTemplate := {}
deriving DecidableEq, Repr

/-- JSON documents, the image of `json.dumps`/`json.loads`.  The embedding
works at the level of this AST: CPython's `dumps` and `loads` are mutually
inverse on documents built from the types below (floats round-trip through
`repr` by design), so `to_json`/`from_json` compose exactly as the textual
versions do. -/
inductive Json where
  | null
  | bool (b : Bool)
  | int (n : Int)
  | num (d : Dec)
  | str (s : String)
  | arr (xs : List Json)
  | obj (kvs : List (String × Json))

/-- Python dict truthiness of a decoded JSON value (used by
`data.get("metadata") or {}`). -/
def Json.falsy : Json → Bool
  | .null => true
  | .bool b => !b
  | .int n => n == 0
  | .num d => d.m == 0
  | .str s => s == ""
  | .arr xs => xs.isEmpty
  | .obj kvs => kvs.isEmpty

/-- Key lookup in a decoded JSON object. -/
def jlookup (kvs : List (String × Json)) (k : String) : Option Json :=
  (kvs.find? (fun p => p.1 == k)).map Prod.snd

/-- Read a string field with a dataclass default (missing key → default;
present key of another type is a typed read — CPython would accept any type
here without conversion, a divergence never exercised by `to_json` output). -/
def jGetStr (kvs : List (String × Json)) (k : String) (dflt : String) :
    Option String :=
  match jlookup kvs k with
  | none => some dflt
  | some (.str s) => some s
  | some _ => none

/-- Read an integer field with a dataclass default. -/
def jGetInt (kvs : List (String × Json)) (k : String) (dflt : Int) :
    Option Int :=
  match jlookup kvs k with
  | none => some dflt
  | some (.int n) => some n
  | some _ => none

/-- Read a float field with a dataclass default. -/
def jGetNum (kvs : List (String × Json)) (k : String) (dflt : Dec) :
    Option Dec :=
  match jlookup kvs k with
  | none => some dflt
  | some (.num d) => some d
  | some _ => none

/-- Read a boolean field with a dataclass default. -/
def jGetBool (kvs : List (String × Json)) (k : String) (dflt : Bool) :
    Option Bool :=
  match jlookup kvs k with
  | none => some dflt
  | some (.bool b) => some b
  | some _ => none

/-- Read an optional-string field (JSON `null` ↦ `None`). -/
def jGetOptStr (kvs : List (String × Json)) (k : String)
    (dflt : Option String) : Option (Option String) :=
  match jlookup kvs k with
  | none => some dflt
  | some .null => some none
  | some (.str s) => some (some s)
  | some _ => none

/-- `asdict` of a `MetadataTemplate` (field order as declared). -/
def MetadataTemplate.to_dict (m : MetadataTemplate) : List (String × Json) :=
  [(("artist"), .str m.artist), (("title"), .str m.title),
   (("album"), .str m.album), (("year"), .str m.year),
   (("genre"), .str m.genre), (("comment"), .str m.comment)]

/-- `MetadataTemplate(**md)`: unknown keys raise `TypeError` (↦ `none`),
missing keys take the dataclass defaults. -/
def MetadataTemplate.from_dict (kvs : List (String × Json)) :
    Option MetadataTemplate := do
  let known := [("artist"), ("title"), ("album"), ("year"), ("genre"),
    ("comment")]
  if kvs.all (fun p => known.contains p.1) then
    let artist ← jGetStr kvs ("artist") ("")
    let title ← jGetStr kvs ("title") ("{stem}")
    let album ← jGetStr kvs ("album") ("")
    let year ← jGetStr kvs ("year") ("")
    let genre ← jGetStr kvs ("genre") ("")
    let comment ← jGetStr kvs ("comment") ("")
    pure { artist := artist, title := title, album := album, year := year,
           genre := genre, comment := comment }
  else none

/-- `ProcessingSettings.to_json`: `asdict(self)` with the `metadata` entry
replaced by `asdict(self.metadata)`, then serialized.  The AST below is the
document `json.dumps` would print. -/
def ProcessingSettings.to_json (s : ProcessingSettings) : Json :=
  .obj [(("output_format"), .str s.output_format),
    (("quality"), .str s.quality),
    (("bit_depth"), .int s.bit_depth),
    (("sample_rate"), .int s.sample_rate),
    (("channels"), .int s.channels),
    (("normalize_loudness"), .bool s.normalize_loudness),
    (("normalize_mode"), .str s.normalize_mode),
    (("target_i"), .num s.target_i),
    (("target_tp"), .num s.target_tp),
    (("target_lra"), .num s.target_lra),
    (("fade_in_sec"), .num s.fade_in_sec),
    (("fade_out_sec"), .num s.fade_out_sec),
    (("overwrite_existing"), .bool s.overwrite_existing),
    (("output_directory"),
      match s.output_directory with
      | some d => .str d
      | none => .null),
    (("parallelism"), .int s.parallelism),
    (("filename_template"), .str s.filename_template),
    (("metadata"), .obj s.metadata.to_dict)]

/-- Keys accepted by `ProcessingSettings(**data)`. -/
def settingsKeys : List String :=
  [("output_format"), ("quality"), ("bit_depth"), ("sample_rate"),
   ("channels"), ("normalize_loudness"), ("normalize_mode"), ("target_i"),
   ("target_tp"), ("target_lra"), ("fade_in_sec"), ("fade_out_sec"),
   ("overwrite_existing"), ("output_directory"), ("parallelism"),
   ("filename_template"), ("metadata")]

/-- `ProcessingSettings.from_json`: `data = json.loads(s)`;
`md = data.get("metadata") or {}`; `data["metadata"] = MetadataTemplate(**md)`;
`ProcessingSettings(**data)`.  Failures (non-object document, truthy
non-dict metadata, unknown keys) are `none`. -/
def ProcessingSettings.from_json (j : Json) : Option ProcessingSettings := do
  match j with
  | .obj kvs =>
    let mdJson := (jlookup kvs ("metadata")).getD .null
    let md ←
      if mdJson.falsy then MetadataTemplate.from_dict []
      else match mdJson with
        | .obj mkvs => MetadataTemplate.from_dict mkvs
        | _ => none
    if kvs.all (fun p => settingsKeys.contains p.1) then
      let output_format ← jGetStr kvs ("output_format") ("wav")
      let quality ← jGetStr kvs ("quality") ("V2")
      let bit_depth ← jGetInt kvs ("bit_depth") 16
      let sample_rate ← jGetInt kvs ("sample_rate") 48000
      let channels ← jGetInt kvs ("channels") 2
      let normalize_loudness ← jGetBool kvs ("normalize_loudness") false
      let normalize_mode ← jGetStr kvs ("normalize_mode") ("one-pass")
      let target_i ← jGetNum kvs ("target_i") ⟨-160, 1⟩
      let target_tp ← jGetNum kvs ("target_tp") ⟨-15, 1⟩
      let target_lra ← jGetNum kvs ("target_lra") ⟨110, 1⟩
      let fade_in_sec ← jGetNum kvs ("fade_in_sec") ⟨0, 1⟩
      let fade_out_sec ← jGetNum kvs ("fade_out_sec") ⟨0, 1⟩
      let overwrite_existing ← jGetBool kvs ("overwrite_existing") false
      let output_directory ← jGetOptStr kvs ("output_directory") none
      let parallelism ← jGetInt kvs ("parallelism") 1
      let filename_template ← jGetStr kvs ("filename_template")
        ("{stem}.{ext}")
      pure { output_format := output_format, quality := quality,
             bit_depth := bit_depth, sample_rate := sample_rate,
             channels := channels, normalize_loudness := normalize_loudness,
             normalize_mode := normalize_mode, target_i := target_i,
             target_tp := target_tp, target_lra := target_lra,
             fade_in_sec := fade_in_sec, fade_out_sec := fade_out_sec,
             overwrite_existing := overwrite_existing,
             output_directory := output_directory,
             parallelism := parallelism,
             filename_template := filename_template, metadata := md }
    else none
  | _ => none

/-- C10: JSON persistence round-trips at the public interface: for every
`ProcessingSettings` value `s` (including its nested `MetadataTemplate`),
`ProcessingSettings.from_json (s.to_json) = some s`. -/
theorem c10_settings_json_roundtrip (s : ProcessingSettings) :
    ProcessingSettings.from_json s.to_json = some s := by
  obtain ⟨f1, f2, f3, f4, f5, f6, f7, f8, f9, f10, f11, f12, f13, od, f15,
    f16, md⟩ := s
  obtain ⟨m1, m2, m3, m4, m5, m6⟩ := md
  cases od <;> rfl

/-- `settings_validator.py` loudness block: checked only under
`if s.normalize_loudness:`.  (Quote ornaments inside the source's error
messages are elided; no theorem depends on message text.) -/
def checkLoudness (s : ProcessingSettings) : Except String Unit :=
  if s.normalize_loudness then
    if ¬ ((-36 : ℚ) ≤ s.target_i.toRat ∧ s.target_i.toRat ≤ -8) then
      .error (("Target LUFS must be between -36 and -8, but got ") ++
        s.target_i.print)
    else if (-1 : ℚ) < s.target_tp.toRat then
      .error (("Target true peak must be ≤ -1.0 dBTP, but got ") ++
        s.target_tp.print)
    else if s.target_lra.toRat < 0 then
      .error (("Target LRA must be ≥ 0, but got ") ++ s.target_lra.print)
    else .ok ()
  else .ok ()

/-- `settings_validator.py` format-specific block.  In the AAC and OGG
branches the out-of-range `ValueError` raised inside the `try` is caught by
that branch's own `except`, so every failure there surfaces the
invalid-format message, exactly as the source behaves. -/
def checkFormat (s : ProcessingSettings) : Except String Unit :=
  let fmt := pyLower s.output_format.data
  if fmt = ("wav").data then
    if s.bit_depth = 16 ∨ s.bit_depth = 24 ∨ s.bit_depth = 32 then .ok ()
    else .error (("WAV bit depth must be 16, 24, or 32, but got ") ++
      toString s.bit_depth)
  else if fmt = ("mp3").data then
    if [("V0").data, ("V1").data, ("V2").data, ("V3").data,
        ("V4").data].contains (pyUpper s.quality.data)
    then .ok ()
    else .error (("MP3 quality must be V0-V4, but got ") ++ s.quality)
  else if fmt = ("aac").data ∨ fmt = ("m4a").data then
    if ¬ pyEnds ("k").data s.quality.data then
      .error (("AAC quality must be a bitrate (e.g., 256k), but got ") ++
        s.quality)
    else
      match parsePyInt s.quality.data.dropLast with
      | some br =>
          if 64 ≤ br ∧ br ≤ 320 then .ok ()
          else .error (("Invalid AAC bitrate format: ") ++ s.quality)
      | none => .error (("Invalid AAC bitrate format: ") ++ s.quality)
  else if fmt = ("ogg").data then
    match parsePyInt s.quality.data with
    | some q =>
        if 0 ≤ q ∧ q ≤ 10 then .ok ()
        else .error (("Invalid OGG quality format: ") ++ s.quality)
    | none => .error (("Invalid OGG quality format: ") ++ s.quality)
  else .ok ()

/-- The fixed allowed sample-rate set of `settings_validator.py`. -/
def allowedSampleRates : List Int := [22050, 32000, 44100, 48000, 88200, 96000]

/-- `settings_validator.py` general audio block (sample rate, channels). -/
def checkGeneral (s : ProcessingSettings) : Except String Unit :=
  if ¬ allowedSampleRates.contains s.sample_rate then
    .error (("Invalid sample rate: ") ++ toString s.sample_rate ++
      ". Must be one of the common rates.")
  else if ¬ (1 ≤ s.channels ∧ s.channels ≤ 8) then
    .error (("Channels must be between 1 and 8, but got ") ++
      toString s.channels)
  else .ok ()

/-- `settings_validator.py` filesystem block.  `dir_conflict` is the
environment's answer to "the output path exists and is not a directory";
an empty-string directory is falsy in Python and skips the check. -/
def checkFilesystem (s : ProcessingSettings) (dir_conflict : Bool) :
    Except String Unit :=
  match s.output_directory with
  | some d =>
      if d ≠ "" ∧ dir_conflict then
        .error (("Output path ") ++ d ++ " exists and is not a directory.")
      else .ok ()
  | none => .ok ()

/-- `settings_validator.py` template block; `template_ok` is the
environment's answer to "`filename_template.format(...)` succeeds". -/
def checkTemplate (template_ok : Bool) : Except String Unit :=
  if template_ok then .ok ()
  else .error ("Invalid placeholder in filename template")

/-- `validate_settings(s)`: the source's checks in source order, raising
(`.error`) on the first violation. -/
def validate_settings (s : ProcessingSettings) (dir_conflict template_ok :
    Bool) : Except String Unit := do
  checkLoudness s
  checkFormat s
  checkGeneral s
  checkFilesystem s dir_conflict
  checkTemplate template_ok

/-- Sequencing in `Except`: the left action of a successful chain
succeeded. -/
theorem exceptBind_ok_left {α : Type} {x : Except String Unit}
    {f : Unit → Except String α} {v : α} (h : (x >>= f) = .ok v) :
    x = .ok () := by
  cases x with
  | error e => simp [Bind.bind, Except.bind] at h
  | ok u => cases u; rfl

/-- Sequencing in `Except`: the continuation of a successful chain
succeeded. -/
theorem exceptBind_ok_right {α : Type} {x : Except String Unit}
    {f : Unit → Except String α} {v : α} (h : (x >>= f) = .ok v) :
    f () = .ok v := by
  cases x with
  | error e => simp [Bind.bind, Except.bind] at h
  | ok u => cases u; simpa [Bind.bind, Except.bind] using h

/-- C9 (amended): settings accepted by `validate_settings` have a sample
rate in the fixed allowed set and a channel count in `[1, 8]`
unconditionally, and — whenever normalization is enabled — a loudness
target in `[-36, -8]`, a true-peak ceiling `≤ -1.0` and a loudness range
`≥ 0`.  (The loudness bounds are checked only under
`if s.normalize_loudness:`, so they are not independent of that flag.) -/
theorem c9_validate_ok_bounds (s : ProcessingSettings)
    (dir_conflict template_ok : Bool)
    (h : validate_settings s dir_conflict template_ok = .ok ()) :
    allowedSampleRates.contains s.sample_rate = true ∧
    1 ≤ s.channels ∧ s.channels ≤ 8 ∧
    (s.normalize_loudness = true →
      (-36 : ℚ) ≤ s.target_i.toRat ∧ s.target_i.toRat ≤ -8 ∧
      s.target_tp.toRat ≤ -1 ∧ (0 : ℚ) ≤ s.target_lra.toRat) := by
  unfold validate_settings at h
  have hl : checkLoudness s = .ok () := exceptBind_ok_left h
  have h2 := exceptBind_ok_right h
  have h3 := exceptBind_ok_right h2
  have hg : checkGeneral s = .ok () := exceptBind_ok_left h3
  unfold checkGeneral at hg
  split_ifs at hg with g1 g2
  refine ⟨g1, g2.1, g2.2, ?_⟩
  intro hn
  unfold checkLoudness at hl
  rw [if_pos hn] at hl
  split_ifs at hl with l1 l2 l3
  exact ⟨l1.1, l1.2, not_lt.mp l2, not_lt.mp l3⟩

/-- Settings whose loudness values violate every spec bound while
normalization is disabled (all other fields are the dataclass defaults). -/
def c9Bad : ProcessingSettings :=
  { normalize_loudness := false, target_i := ⟨0, 0⟩, target_tp := ⟨0, 0⟩,
    target_lra := ⟨-50, 1⟩ }

/-- C9 (counterexample): `validate_settings` accepts settings whose
loudness target, true-peak ceiling and loudness range all violate the
claimed bounds, because normalization is disabled — the bounds are not
enforced independently of the normalization flag. -/
theorem c9_counterexample :
    validate_settings c9Bad false true = .ok () ∧
    ¬ (c9Bad.target_i.toRat ≤ -8) ∧
    ¬ (c9Bad.target_tp.toRat ≤ -1) ∧
    ¬ ((0 : ℚ) ≤ c9Bad.target_lra.toRat) := by
  refine ⟨rfl, ?_, ?_, ?_⟩ <;> norm_num [c9Bad, Dec.toRat]

/-- C9 (witness): the amended theorem applied to the default settings,
which `validate_settings` accepts. -/
theorem c9_witness :
    validate_settings ({} : ProcessingSettings) false true = .ok () ∧
    (allowedSampleRates.contains ({} : ProcessingSettings).sample_rate = true ∧
     1 ≤ ({} : ProcessingSettings).channels ∧
     ({} : ProcessingSettings).channels ≤ 8 ∧
     (({} : ProcessingSettings).normalize_loudness = true →
       (-36 : ℚ) ≤ ({} : ProcessingSettings).target_i.toRat ∧
       ({} : ProcessingSettings).target_i.toRat ≤ -8 ∧
       ({} : ProcessingSettings).target_tp.toRat ≤ -1 ∧
       (0 : ℚ) ≤ ({} : ProcessingSettings).target_lra.toRat)) :=
  ⟨rfl, c9_validate_ok_bounds {} false true rfl⟩

/-- The percent formula shared by both runners:
`min(100.0, (out_ms / 1_000_000.0) / duration_sec * 100.0)`.  Note the
absence of a lower clamp. -/
def percentOf (duration t : ℚ) : ℚ := min 100 (t / 1000000 / duration * 100)

/-- One iteration of `run_ffmpeg`'s stdout loop
(`ffmpeg_runner_improved.py` lines 92–117): the stripped line is split on
every `=`; exactly two parts yield a delivered `(key, value)` pair, with a
`percent` added when the key is `out_time_ms`, the duration is positive and
`float(value)` succeeds (a `ValueError` is caught and the pair is still
delivered).  `eta_sec` is computed there too but is dropped by
`process_file`'s wrapper and not modelled.  `none` means `on_progress` is
not called for this line. -/
def improvedEvent (duration : ℚ) (raw : List Char) :
    Option (List Char × List Char × Option ℚ) :=
  match pySplit ('=') (pyStrip raw) with
  | [k, v] =>
      if pyStrip k = ("out_time_ms").data then
        if 0 < duration then
          match Dec.parse (pyStrip v) with
          | some t =>
              some (pyStrip k, pyStrip v, some (percentOf duration t.toRat))
          | none => some (pyStrip k, pyStrip v, none)
        else some (pyStrip k, pyStrip v, none)
      else some (pyStrip k, pyStrip v, none)
  | _ => none

/-- The percent component (if any) that a stdout line makes `run_ffmpeg`
hand to `on_progress`. -/
def percentDelivery (duration : ℚ) (l : List Char) : Option ℚ :=
  match improvedEvent duration l with
  | some (_, _, some p) => some p
  | _ => none

/-- The sequence of `percent` values `run_ffmpeg` hands to `on_progress`
over a run whose stdout is `lines`. -/
def improvedDeliveredPercents (duration : ℚ) (lines : List (List Char)) :
    List ℚ :=
  lines.filterMap (percentDelivery duration)

/-- The `out_time_ms` reading of a line under the improved runner's
exact-two-parts split, independent of the duration guard. -/
def parseOutTimeImproved (raw : List Char) : Option ℚ :=
  match pySplit ('=') (pyStrip raw) with
  | [k, v] =>
      if pyStrip k = ("out_time_ms").data then
        (Dec.parse (pyStrip v)).map Dec.toRat
      else none
  | _ => none

/-- One iteration of `_process_file_original`'s stdout loop
(`core.py` lines 447–473) projected to deliveries of kind `"progress"`:
an `out_time_ms=` line delivers `percentOf` when the duration is positive
and `float` succeeds (the source splits with `split("=", 1)`, i.e. takes
everything after the first `=`, which is `drop 12` here), a `speed=` line
delivers only an `"eta"` (not modelled), and a `progress=` line containing
`end` delivers `100.0` unconditionally. -/
def fallbackProgressEvent (duration : ℚ) (raw : List Char) : Option ℚ :=
  if pyStarts ("out_time_ms=").data (pyStrip raw) then
    match Dec.parse ((pyStrip raw).drop 12) with
    | some t => if 0 < duration then some (percentOf duration t.toRat)
        else none
    | none => none
  else if pyStarts ("speed=").data (pyStrip raw) then none
  else if pyStarts ("progress=").data (pyStrip raw) &&
      pySub ("end").data (pyStrip raw) then some 100
  else none

/-- The `"progress"`-kind values the fallback parser hands to the callback
over a run whose stdout is `lines`. -/
def fallbackDeliveredPercents (duration : ℚ) (lines : List (List Char)) :
    List ℚ :=
  lines.filterMap (fallbackProgressEvent duration)

/-- A line that reads as `out_time_ms=t` delivers exactly
`percentOf duration t` when the duration is positive. -/
theorem percentDelivery_of_parse {d : ℚ} {l : List Char} {t : ℚ}
    (hd : 0 < d) (h : parseOutTimeImproved l = some t) :
    percentDelivery d l = some (percentOf d t) := by
  unfold parseOutTimeImproved at h
  rcases hs : pySplit ('=') (pyStrip l) with _ | ⟨k, _ | ⟨v, _ | _⟩⟩ <;>
    rw [hs] at h
  · exact Option.noConfusion h
  · exact Option.noConfusion h
  · have h' : (if pyStrip k = ("out_time_ms").data then
        Option.map Dec.toRat (Dec.parse (pyStrip v)) else none) = some t := h
    by_cases hk : pyStrip k = ("out_time_ms").data
    · rw [if_pos hk] at h'
      cases hp : Dec.parse (pyStrip v) with
      | none => rw [hp] at h'; exact Option.noConfusion h'
      | some t0 =>
          rw [hp] at h'
          have ht : t0.toRat = t := by simpa using h'
          simp [percentDelivery, improvedEvent, hs, hk, hd, hp, ht]
    · rw [if_neg hk] at h'
      exact Option.noConfusion h'
  · exact Option.noConfusion h

/-- Monotonicity of the percent formula in the progress time, for positive
durations. -/
theorem percentOf_mono {d t₁ t₂ : ℚ} (hd : 0 < d) (h : t₁ ≤ t₂) :
    percentOf d t₁ ≤ percentOf d t₂ := by
  unfold percentOf
  refine min_le_min le_rfl ?_
  gcongr

/-- C4 (amended): with a known positive duration, every delivered percent
equals `min(100, (out_time_ms/1e6)/duration*100)` for its `out_time_ms`
line — an upper clamp only, so the value can be negative when the engine
emits a negative `out_time_ms` — every delivered percent is `≤ 100`, and
the delivered sequence is non-decreasing whenever the emitted `out_time_ms`
sequence is. -/
theorem c4_percent_upper_clamp_only (d : ℚ) (lines : List (List Char))
    (ts : List ℚ) (hd : 0 < d)
    (hp : List.Forall₂ (fun l t => parseOutTimeImproved l = some t) lines
      ts) :
    improvedDeliveredPercents d lines = ts.map (percentOf d) ∧
    (∀ p ∈ improvedDeliveredPercents d lines, p ≤ 100) ∧
    (ts.Chain' (· ≤ ·) →
      (improvedDeliveredPercents d lines).Chain' (· ≤ ·)) := by
  have key : improvedDeliveredPercents d lines = ts.map (percentOf d) := by
    induction hp with
    | nil => rfl
    | cons h _ ih =>
        unfold improvedDeliveredPercents at ih ⊢
        rw [List.filterMap_cons, percentDelivery_of_parse hd h, ih,
          List.map_cons]
  refine ⟨key, ?_, ?_⟩
  · intro p hps
    rw [key] at hps
    obtain ⟨t, _, rfl⟩ := List.mem_map.mp hps
    exact min_le_left _ _
  · intro hc
    rw [key, List.chain'_map]
    exact hc.imp (fun _ _ => percentOf_mono hd)

/-- C4 (witness): the amended theorem applied to a single
`out_time_ms=2000000` line with duration 10 s. -/
theorem c4_witness :
    (0 : ℚ) < 10 ∧
    improvedDeliveredPercents 10 [("out_time_ms=2000000").data] =
      [(2000000 : ℚ)].map (percentOf 10) := by
  have hone : parseOutTimeImproved ("out_time_ms=2000000").data =
      some (Dec.toRat ⟨2000000, 0⟩) := rfl
  have hfor : List.Forall₂ (fun l t => parseOutTimeImproved l = some t)
      [("out_time_ms=2000000").data] [(2000000 : ℚ)] := by
    refine List.Forall₂.cons ?_ List.Forall₂.nil
    rw [hone]
    norm_num [Dec.toRat]
  exact ⟨by norm_num,
    (c4_percent_upper_clamp_only 10 _ _ (by norm_num) hfor).1⟩

/-- C4 (counterexample): a negative `out_time_ms` (which the engine can
emit) makes both runners deliver a negative percent: for duration 10 s and
the line `out_time_ms=-5000000`, the delivered percent is −50, which is
outside `[0,100]` and differs from `clamp(0,100,·) = 0` — the code computes
`min(100, ·)` with no lower clamp. -/
theorem c4_counterexample :
    improvedDeliveredPercents 10 [("out_time_ms=-5000000").data] = [-50] ∧
    fallbackDeliveredPercents 10 [("out_time_ms=-5000000").data] = [-50] ∧
    ¬ ((0 : ℚ) ≤ -50) ∧
    max 0 (min 100 ((-5000000 : ℚ) / 1000000 / 10 * 100)) = 0 := by
  have h1 : improvedDeliveredPercents 10 [("out_time_ms=-5000000").data] =
      [percentOf 10 (Dec.toRat ⟨-5000000, 0⟩)] := rfl
  have h2 : fallbackDeliveredPercents 10 [("out_time_ms=-5000000").data] =
      [percentOf 10 (Dec.toRat ⟨-5000000, 0⟩)] := rfl
  have hval : percentOf 10 (Dec.toRat ⟨-5000000, 0⟩) = -50 := by
    norm_num [percentOf, Dec.toRat, min_def]
  refine ⟨?_, ?_, by norm_num, ?_⟩
  · rw [h1, hval]
  · rw [h2, hval]
  · norm_num [min_def, max_def]

/-- C5 (amended): only the original fallback parser forces `percent = 100`
on a terminal `progress=end` line; the improved runner `run_ffmpeg`
forwards the raw `progress=end` pair to `on_progress` without any percent
(and `process_file`'s wrapper drops percent-less deliveries), for every
duration. -/
theorem c5_progress_end (d : ℚ) :
    improvedEvent d ("progress=end").data =
      some (("progress").data, ("end").data, none) ∧
    fallbackProgressEvent d ("progress=end").data = some 100 :=
  ⟨rfl, rfl⟩

/-- C5 (counterexample): with duration 10 s and stdout consisting of the
single terminal line `progress=end`, the improved runner delivers no
percent at all (in particular never 100), while the fallback parser
delivers exactly `[100]` — the claim fails for the improved runner. -/
theorem c5_counterexample :
    improvedDeliveredPercents 10 [("progress=end").data] = [] ∧
    fallbackDeliveredPercents 10 [("progress=end").data] = [100] :=
  ⟨rfl, rfl⟩

/-- An engine run observed from outside: its exit code and captured
streams, plus the (partial) captures at the moment a stop request would
interrupt it. -/
structure EngineRun where
  exitCode : Int
  stdoutText : List Char
  stderrText : List Char
  stdoutAtStop : List Char := []
  stderrAtStop : List Char := []

/-- `run_ffmpeg`'s result triple (`ffmpeg_runner_improved.py` lines 60–122):
when a stop event was passed and is set during the run, the loop signals
the process and returns `(-1, partial stdout, partial stderr)`; otherwise
it returns the exit code with the full captures.  `stop_event = none`
models the Python default `stop_event=None`. -/
def run_ffmpeg_result (stop_event : Option Bool) (r : EngineRun) :
    Int × List Char × List Char :=
  match stop_event with
  | some true => (-1, r.stdoutAtStop, r.stderrAtStop)
  | _ => (r.exitCode, r.stdoutText, r.stderrText)

/-- `process_file`'s improved-runner branch (`core.py` lines 365–377):
`rc, _, last = run_ffmpeg(cmd, on_progress=progress_wrapper,
duration_sec=af.duration)` — the `stop_event` received by `process_file`
is NOT forwarded (the call omits it, hence `none` below), and `last` is
bound to `run_ffmpeg`'s third component, which is the FULL captured
stderr.  The return value is
`(rc == 0, None if rc == 0 else last or f"ffmpeg exited with {rc}")`. -/
def process_file_improved (stop_event : Option Bool) (r : EngineRun) :
    Bool × Option (List Char) :=
  let res := run_ffmpeg_result none r
  let rc := res.1
  let last := res.2.2
  (rc == 0,
   if rc == 0 then none
   else some (if last ≠ [] then last
     else ("ffmpeg exited with ").data ++ (toString rc).data))

/-- `_process_file_original`'s result mapping after the read loop
(`core.py` lines 475–485): `err = proc.stderr.read().strip()`; on exit
code 0 the job succeeds with no message; otherwise the message is the last
line of the stripped stderr (necessarily non-blank when stderr has any
non-whitespace), or `"FFmpeg exited with code {ret}"` when it is empty.
`splitlines()` is modelled as splitting on `\n`; the inputs in scope
contain no other line terminators. -/
def fallbackErrorMessage (ret : Int) (stderrRead : List Char) :
    Option (List Char) :=
  if ret == 0 then none
  else
    let err := pyStrip stderrRead
    let ls := if err = [] then ([] : List (List Char))
      else pySplit ('\n') err
    let last := pyStrip ((ls.getLast?).getD [])
    some (if last ≠ [] then last
      else ("FFmpeg exited with code ").data ++ (toString ret).data)

/-- `_run_one`'s terminal mapping of a `process_file` result
(`gui.py` lines 422–428): success → Completed with no message; failure →
Skipped when the error message is exactly `"Cancelled"`, Failed
otherwise, carrying the message. -/
def runOneStatus (res : Bool × Option (List Char)) :
    ProcessingStatus × Option (List Char) :=
  if res.1 then (ProcessingStatus.completed, none)
  else (if res.2 = some (("Cancelled").data) then ProcessingStatus.skipped
    else ProcessingStatus.failed, res.2)

/-- C1: with the improved runner installed, a stop event set mid-run is
never seen by `run_ffmpeg` — `process_file` does not forward it — so a
cancelled job whose engine process happens to exit 0 returns success and
the job is marked Completed, not Skipped/"Cancelled"; yet the very same
run would have returned the cancel sentinel −1 had the event been passed.
This evaluates the code at the failing input of the code_bug report. -/
theorem c1_improved_path_ignores_stop :
    process_file_improved (some true) ⟨0, [], [], [], []⟩ = (true, none) ∧
    runOneStatus (process_file_improved (some true) ⟨0, [], [], [], []⟩) =
      (ProcessingStatus.completed, none) ∧
    (run_ffmpeg_result (some true) ⟨0, [], [], [], []⟩).1 = -1 :=
  ⟨rfl, rfl, rfl⟩

/-- C2: on nonzero exit the improved-runner branch surfaces the ENTIRE
captured stderr (the variable named `last` receives `run_ffmpeg`'s full
stderr component), while the original fallback surfaces the last non-empty
line; at stderr `"error: first\nerror: last\n"` with exit code 1 the two
differ.  This evaluates the code at the failing input of the code_bug
report. -/
theorem c2_improved_message_full_stderr :
    process_file_improved none
      ⟨1, [], ("error: first\nerror: last\n").data, [], []⟩ =
      (false, some (("error: first\nerror: last\n").data)) ∧
    fallbackErrorMessage 1 (("error: first\nerror: last\n").data) =
      some (("error: last").data) ∧
    ("error: first\nerror: last\n").data ≠ ("error: last").data := by
  refine ⟨rfl, rfl, by decide⟩

/-- `_dispatcher`'s worker-count computation (`gui.py` lines 373–375):
`max_workers = settings.parallelism`, reduced to
`min(parallelism, max(1, (os.cpu_count() or 4) // 2))` when two-pass
normalization is enabled — the HALVED quantity is the machine's CPU count
(4 when undetermined), not the concurrency setting. -/
def dispatcherMaxWorkers (parallelism : Int) (twoPass : Bool)
    (cpuCount : Option Nat) : Int :=
  if twoPass then
    min parallelism (max 1 (((cpuCount.getD 4 : Nat) : Int) / 2))
  else parallelism

/-- The initial launch loop (`gui.py` lines 377–378):
`for _ in range(max_workers): start_job()`, where `start_job` returns
without launching when the queue is empty and otherwise dequeues one file
and starts one worker thread.  Returns the number of workers launched. -/
def launchLoop : Nat → Nat → Nat
  | 0, _ => 0
  | n + 1, q => if q = 0 then launchLoop n 0 else launchLoop n (q - 1) + 1

/-- One reap step of the dispatcher's monitor loop (`gui.py` lines
380–387): a finished worker is removed from `active`; if the queue is
non-empty and stop has not been requested, `start_job` immediately
launches a replacement (net active count unchanged, queue shrinks). -/
def dispatchStep (stop : Bool) (active queue : Nat) : Nat × Nat :=
  if active = 0 then (0, queue)
  else if queue ≠ 0 ∧ stop = false then (active, queue - 1)
  else (active - 1, queue)

/-- The launch loop launches exactly `min(iterations, queue length)`
workers. -/
theorem launchLoop_eq_min (n q : Nat) : launchLoop n q = min n q := by
  induction n generalizing q with
  | zero => simp [launchLoop]
  | succ n ih =>
      unfold launchLoop
      rcases Nat.eq_zero_or_pos q with hq | hq
      · subst hq; simp [ih]
      · rw [if_neg (Nat.pos_iff_ne_zero.mp hq), ih]
        omega

/-- C3 (amended): the dispatcher launches
`min(queueLength, min(parallelism, cap))` workers where `cap` is
`parallelism` normally and `max(1, cpu_count // 2)` (with `cpu_count`
defaulting to 4 when undetermined) in two-pass mode — the halved quantity
is the CPU count, not the concurrency setting — and the reap-and-replenish
step never raises the active count above the launched maximum. -/
theorem c3_launch_counts (p : Int) (tp : Bool) (cpu : Option Nat) (q : Nat)
    (stop : Bool) (a qq : Nat)
    (ha : a ≤ (dispatcherMaxWorkers p tp cpu).toNat) :
    launchLoop (dispatcherMaxWorkers p tp cpu).toNat q =
      min (dispatcherMaxWorkers p tp cpu).toNat q ∧
    (tp = true →
      (dispatcherMaxWorkers p tp cpu).toNat ≤ max 1 (cpu.getD 4 / 2)) ∧
    (dispatchStep stop a qq).1 ≤ (dispatcherMaxWorkers p tp cpu).toNat := by
  refine ⟨launchLoop_eq_min _ _, ?_, ?_⟩
  · intro htp
    simp only [dispatcherMaxWorkers, if_pos htp]
    cases cpu with
    | none => simp only [Option.getD]; omega
    | some c => simp only [Option.getD]; omega
  · unfold dispatchStep
    split_ifs <;> omega

/-- C3 (counterexample): with `concurrency = 8`, two-pass normalization
enabled, a 16-core machine and at least 8 queued files, the dispatcher
launches 8 workers — not the `min(8, max(1, 8//2)) = 4` the claim
requires, because the code halves the CPU count, not the concurrency. -/
theorem c3_counterexample :
    launchLoop ((dispatcherMaxWorkers 8 true (some 16)).toNat) 8 = 8 ∧
    ¬ (launchLoop ((dispatcherMaxWorkers 8 true (some 16)).toNat) 8 ≤ 4) :=
  by decide

/-- C3 (witness): the amended theorem applied at concurrency 8 on an
8-core machine with 3 queued files, one active worker below the cap. -/
theorem c3_witness :
    (2 ≤ (dispatcherMaxWorkers 8 true (some 8)).toNat) ∧
    (launchLoop (dispatcherMaxWorkers 8 true (some 8)).toNat 3 =
      min (dispatcherMaxWorkers 8 true (some 8)).toNat 3 ∧
     (true = true →
       (dispatcherMaxWorkers 8 true (some 8)).toNat ≤
         max 1 ((some 8 : Option Nat).getD 4 / 2)) ∧
     (dispatchStep false 2 5).1 ≤
       (dispatcherMaxWorkers 8 true (some 8)).toNat) :=
  ⟨by decide, c3_launch_counts 8 true (some 8) 3 false 2 5 (by decide)⟩

/-- Scalar JSON values appearing in the measurement blob.  The loudnorm
`print_format=json` protocol emits an object of string/number scalars;
nested containers do not occur in it and are outside the modelled
grammar. -/
inductive JVal where
  | num (d : Dec)
  | str (s : List Char)
  | bool (b : Bool)
  | null
deriving DecidableEq, Repr

/-- JSON whitespace. -/
def isJsonWs (c : Char) : Bool := c = ' ' ∨ c = '\t' ∨ c = '\n' ∨ c = '\r'

/-- Skip JSON whitespace. -/
def skipWs (cs : List Char) : List Char := cs.dropWhile isJsonWs

/-- JSON string body up to the closing quote (escape sequences do not
occur in the blob protocol and are rejected like malformed input). -/
def jstrBody : List Char → List Char → Option (List Char × List Char)
  | [], _ => none
  | c :: rest, acc =>
      if c = '"' then some (acc.reverse, rest)
      else if c = '\\' then none
      else jstrBody rest (c :: acc)

/-- Longest digit prefix of a character stream. -/
def takeDigits : List Char → List Char × List Char
  | [] => ([], [])
  | c :: cs =>
      if c.isDigit then
        let p := takeDigits cs
        (c :: p.1, p.2)
      else ([], c :: cs)

/-- A JSON number (integer or fraction; the blob protocol emits no
exponent forms). -/
def parseJNum (cs : List Char) : Option (Dec × List Char) :=
  let p :=
    match cs with
    | '-' :: r => (true, r)
    | _ => (false, cs)
  match takeDigits p.2 with
  | ([], _) => none
  | (ds, cs2) =>
      match cs2 with
      | '.' :: cs3 =>
          match takeDigits cs3 with
          | ([], _) => none
          | (fs, cs4) =>
              some (⟨(if p.1 then -1 else 1) * (digitsToNat (ds ++ fs) : Int),
                fs.length⟩, cs4)
      | _ => some (⟨(if p.1 then -1 else 1) * (digitsToNat ds : Int), 0⟩, cs2)

/-- One scalar JSON value. -/
def parseJVal (cs : List Char) : Option (JVal × List Char) :=
  match cs with
  | '"' :: rest => (jstrBody rest []).map (fun p => (JVal.str p.1, p.2))
  | 't' :: 'r' :: 'u' :: 'e' :: rest => some (JVal.bool true, rest)
  | 'f' :: 'a' :: 'l' :: 's' :: 'e' :: rest => some (JVal.bool false, rest)
  | 'n' :: 'u' :: 'l' :: 'l' :: rest => some (JVal.null, rest)
  | _ => (parseJNum cs).map (fun p => (JVal.num p.1, p.2))

/-- Members of a flat JSON object, with fuel bounding the recursion. -/
def parseMembers : Nat → List Char → List (List Char × JVal) →
    Option (List (List Char × JVal))
  | 0, _, _ => none
  | fuel + 1, cs, acc =>
      match skipWs cs with
      | '"' :: rest =>
          match jstrBody rest [] with
          | none => none
          | some (key, afterKey) =>
              match skipWs afterKey with
              | ':' :: afterColon =>
                  match parseJVal (skipWs afterColon) with
                  | none => none
                  | some (v, afterVal) =>
                      match skipWs afterVal with
                      | d :: next =>
                          if d = ',' then
                            parseMembers fuel next ((key, v) :: acc)
                          else if d = Char.ofNat 125 then
                            if skipWs next = [] then
                              some (((key, v) :: acc).reverse)
                            else none
                          else none
                      | [] => none
              | _ => none
      | _ => none

/-- `json.loads` on the brace-delimited slice of stderr: a flat object of
scalar members.  The slice handed over by `measure_loudness` always ends
at its final closing brace, so content after the object is a parse error,
exactly as for `json.loads`. -/
def parseFlatJson (cs : List Char) : Option (List (List Char × JVal)) :=
  match skipWs cs with
  | c :: rest =>
      if c = Char.ofNat 123 then
        match skipWs rest with
        | c2 :: tail =>
            if c2 = Char.ofNat 125 then
              if skipWs tail = [] then some [] else none
            else parseMembers (cs.length + 1) (skipWs rest) []
        | [] => none
      else none
  | [] => none

/-- Index of the last occurrence of a character (`str.rfind`). -/
def lastIdxOf (cs : List Char) (c : Char) : Option Nat :=
  (cs.reverse.findIdx? (fun x => x = c)).map (fun k => cs.length - 1 - k)

/-- `start, end = stderr.find("{"), stderr.rfind("}")`, and the slice
`stderr[start : end + 1]` when `start != -1 and end > start`
(`core.py` lines 288–291). -/
def extractBlob (st : List Char) : Option (List Char) :=
  match st.findIdx? (fun c => c = Char.ofNat 123),
    lastIdxOf st (Char.ofNat 125) with
  | some i, some j =>
      if i < j then some ((st.drop i).take (j - i + 1)) else none
  | _, _ => none

/-- Python `float(x)` on a decoded JSON scalar: numbers pass through,
numeric strings are parsed, booleans coerce to 1.0/0.0, `None` raises
`TypeError` (↦ `none`). -/
def pyFloatJ : JVal → Option Dec
  | .num d => some d
  | .str s => Dec.parse s
  | .bool b => some (if b then ⟨1, 0⟩ else ⟨0, 0⟩)
  | .null => none

/-- The five required field names of the measurement blob. -/
def loudnessKeys : List (List Char) :=
  [("input_i").data, ("input_tp").data, ("input_lra").data,
   ("input_thresh").data, ("target_offset").data]

/-- `MeasuredLoudness`: the five-field record produced by one measurement
pass (`core.py` lines 292–301). -/
structure Loudness where
  input_i : Dec
  input_tp : Dec
  input_lra : Dec
  input_thresh : Dec
  target_offset : Dec
deriving DecidableEq, Repr

/-- Lookup in the decoded blob (a later duplicate key wins, as in a
Python dict). -/
def jGetBlob (kvs : List (List Char × JVal)) (k : List Char) : Option JVal :=
  ((kvs.reverse).find? (fun p => p.1 == k)).map Prod.snd

/-- `float(blob.get(k, 0))`: a missing key defaults to the integer `0`
(which coerces to 0.0), it does not fail. -/
def loudFieldOf (kvs : List (List Char × JVal)) (k : List Char) :
    Option Dec :=
  pyFloatJ ((jGetBlob kvs k).getD (JVal.num ⟨0, 0⟩))

/-- The dict comprehension of `measure_loudness`: coerce the five fields,
failing (propagating the caught exception) only when a PRESENT field does
not coerce. -/
def loudFields (kvs : List (List Char × JVal)) : Option Loudness := do
  let i ← loudFieldOf kvs (("input_i").data)
  let tp ← loudFieldOf kvs (("input_tp").data)
  let lra ← loudFieldOf kvs (("input_lra").data)
  let th ← loudFieldOf kvs (("input_thresh").data)
  let off ← loudFieldOf kvs (("target_offset").data)
  pure ⟨i, tp, lra, th, off⟩

/-- `measure_loudness` (`core.py` lines 266–304).  `outcome = none` covers
every path on which no stderr text is obtained: missing engine binary,
subprocess error, or timeout (all swallowed by the `except` clause); `some
st` is the captured stderr.  The brace scan, the `json.loads` of the
slice, and the five-field coercion follow; every failure yields `None`. -/
def measure_loudness (outcome : Option (List Char)) : Option Loudness := do
  let st ← outcome
  let blob ← extractBlob st
  let kvs ← parseFlatJson blob
  loudFields kvs

/-- A failing field coercion pins a PRESENT, non-coercible field: the
default for a missing key always coerces. -/
theorem loudFieldOf_none_bad {kvs : List (List Char × JVal)}
    {k : List Char} (h : loudFieldOf kvs k = none) :
    ∃ v, jGetBlob kvs k = some v ∧ pyFloatJ v = none := by
  unfold loudFieldOf at h
  cases hl : jGetBlob kvs k with
  | none => rw [hl] at h; simp [Option.getD, pyFloatJ] at h
  | some v => rw [hl] at h; exact ⟨v, rfl, by simpa [Option.getD] using h⟩

instance : Inhabited JVal := ⟨JVal.null⟩

instance : Nonempty (List (List Char × JVal)) := ⟨[]⟩

/-- C6 (amended): `measure_loudness` returns `None` exactly when the run
produced no stderr (process error or timeout), the stderr has no
`{`-to-`}` region, the delimited slice fails to parse, or the parsed blob
has a PRESENT required field that cannot be coerced to a number; a
required field that is MISSING never causes `None` — it defaults to 0.0
via `blob.get(k, 0)`. -/
theorem c6_measure_none_characterization :
    (∀ outcome, measure_loudness outcome = none ↔
      (outcome = none ∨
       ∃ st, outcome = some st ∧
         (extractBlob st = none ∨
          ∃ b, extractBlob st = some b ∧
            (parseFlatJson b = none ∨
             ∃ kvs, parseFlatJson b = some kvs ∧
               loudFields kvs = none)))) ∧
    (∀ kvs, loudFields kvs = none →
      ∃ k, k ∈ loudnessKeys ∧ ∃ v, jGetBlob kvs k = some v ∧
        pyFloatJ v = none) := by
  constructor
  · intro outcome
    cases outcome with
    | none => simp [measure_loudness]
    | some st =>
        cases hx : extractBlob st with
        | none => simp [measure_loudness, hx]
        | some b =>
            cases hp : parseFlatJson b with
            | none => simp [measure_loudness, hx, hp]
            | some kvs =>
                cases hlf : loudFields kvs with
                | none => simp [measure_loudness, hx, hp, hlf]
                | some l => simp [measure_loudness, hx, hp, hlf]
  · intro kvs h
    unfold loudFields at h
    cases h1 : loudFieldOf kvs (("input_i").data) with
    | none =>
        obtain ⟨v, hv, hf⟩ := loudFieldOf_none_bad h1
        exact ⟨_, by simp [loudnessKeys], v, hv, hf⟩
    | some a1 =>
        rw [h1] at h
        simp only [Option.bind_eq_bind, Option.some_bind] at h
        cases h2 : loudFieldOf kvs (("input_tp").data) with
        | none =>
            obtain ⟨v, hv, hf⟩ := loudFieldOf_none_bad h2
            exact ⟨_, by simp [loudnessKeys], v, hv, hf⟩
        | some a2 =>
            rw [h2] at h
            simp only [Option.some_bind] at h
            cases h3 : loudFieldOf kvs (("input_lra").data) with
            | none =>
                obtain ⟨v, hv, hf⟩ := loudFieldOf_none_bad h3
                exact ⟨_, by simp [loudnessKeys], v, hv, hf⟩
            | some a3 =>
                rw [h3] at h
                simp only [Option.some_bind] at h
                cases h4 : loudFieldOf kvs (("input_thresh").data) with
                | none =>
                    obtain ⟨v, hv, hf⟩ := loudFieldOf_none_bad h4
                    exact ⟨_, by simp [loudnessKeys], v, hv, hf⟩
                | some a4 =>
                    rw [h4] at h
                    simp only [Option.some_bind] at h
                    cases h5 : loudFieldOf kvs (("target_offset").data) with
                    | none =>
                        obtain ⟨v, hv, hf⟩ := loudFieldOf_none_bad h5
                        exact ⟨_, by simp [loudnessKeys], v, hv, hf⟩
                    | some a5 =>
                        rw [h5] at h
                        simp at h

/-- C6 (counterexample): a well-formed blob that LACKS four of the five
required fields does not make `measure_loudness` return `None` — the
missing fields silently default to 0.0 (`blob.get(k, 0)`), contrary to the
claim that a blob lacking any required numeric field yields nil. -/
theorem c6_counterexample :
    measure_loudness
      (some (("[Parsed_loudnorm_0] \x7b\"input_i\": -20.1\x7d\n").data)) =
      some ⟨⟨-201, 1⟩, ⟨0, 0⟩, ⟨0, 0⟩, ⟨0, 0⟩, ⟨0, 0⟩⟩ := rfl

/-- C6 (witness): part two of the amended theorem applied to a blob whose
`input_i` is present but not numeric — the pinned bad field is returned. -/
theorem c6_witness :
    ∃ k, k ∈ loudnessKeys ∧ ∃ v,
      jGetBlob [((("input_i").data), JVal.str (("abc").data))] k = some v ∧
      pyFloatJ v = none :=
  c6_measure_none_characterization.2
    [((("input_i").data), JVal.str (("abc").data))] rfl

/-- `core.py` `AudioFile`, restricted to the fields `build_filters`
consumes. -/
structure AudioFile where
  path : String
  name : String
  size : Int := 0
  duration : Dec := ⟨0, 1⟩
deriving DecidableEq, Repr

/-- Positivity of a decimal (`x > 0` on the Python floats in scope). -/
def Dec.isPos (d : Dec) : Bool := 0 < d.m

/-- Difference of two decimals (exact, denominators multiplied). -/
def Dec.sub (a b : Dec) : Dec :=
  ⟨a.m * (10 : Int) ^ b.e - b.m * (10 : Int) ^ a.e, a.e + b.e⟩

/-- `max(0.0, x)` on a decimal. -/
def Dec.max0 (a : Dec) : Dec := if a.m < 0 then ⟨0, 0⟩ else a

/-- CPython `format(x, 'g')` on the short decimals in scope: trailing
fractional zeros are stripped and the point dropped when the fraction
vanishes (the six-significant-digit switch to exponent form is outside the
fade durations the code formats). -/
def Dec.gfmt (d : Dec) : List Char :=
  let sign : List Char := if d.m < 0 then [('-')] else []
  let digits := (toString d.m.natAbs).data
  if d.e = 0 then sign ++ digits
  else
    let digits :=
      if digits.length ≤ d.e then
        List.replicate (d.e + 1 - digits.length) '0' ++ digits
      else digits
    let frac := (digits.drop (digits.length - d.e)).reverse.dropWhile
      (fun c => c = '0') |>.reverse
    if frac = [] then sign ++ digits.take (digits.length - d.e)
    else sign ++ digits.take (digits.length - d.e) ++ ('.') :: frac

/-- Comma join (`",".join(filters)`). -/
def joinComma : List (List Char) → List Char
  | [] => []
  | [x] => x
  | x :: xs => x ++ (',') :: joinComma xs

/-- `AudioProcessor.build_filters` (`core.py` lines 206–227): the loudnorm
filter first (two-pass corrective form when the mode is two-pass and a
measured dict is present — the dict from `measure_loudness` is always
non-empty, hence truthy), then fade-in, then fade-out; returns
`["-af", ",".join(filters)]` or `[]`. -/
def build_filters (af : AudioFile) (s : ProcessingSettings)
    (measured : Option Loudness) : List (List Char) :=
  let filters : List (List Char) :=
    (if s.normalize_loudness then
      [if s.normalize_mode = "two-pass" then
        match measured with
        | some m =>
            ("loudnorm=I=").data ++ s.target_i.printChars ++
            (":TP=").data ++ s.target_tp.printChars ++
            (":LRA=").data ++ s.target_lra.printChars ++
            (":measured_I=").data ++ m.input_i.printChars ++
            (":measured_TP=").data ++ m.input_tp.printChars ++
            (":measured_LRA=").data ++ m.input_lra.printChars ++
            (":measured_thresh=").data ++ m.input_thresh.printChars ++
            (":offset=").data ++ m.target_offset.printChars ++
            (":linear=true:print_format=summary").data
        | none =>
            ("loudnorm=I=").data ++ s.target_i.printChars ++
            (":TP=").data ++ s.target_tp.printChars ++
            (":LRA=").data ++ s.target_lra.printChars ++
            (":print_format=summary").data
      else
        ("loudnorm=I=").data ++ s.target_i.printChars ++
        (":TP=").data ++ s.target_tp.printChars ++
        (":LRA=").data ++ s.target_lra.printChars ++
        (":print_format=summary").data]
     else []) ++
    (if s.fade_in_sec.isPos then
      [("afade=t=in:st=0:d=").data ++ s.fade_in_sec.gfmt]
     else []) ++
    (if s.fade_out_sec.isPos ∧ af.duration.isPos then
      [("afade=t=out:st=").data ++ ((af.duration.sub s.fade_out_sec).max0).gfmt
        ++ (":d=").data ++ s.fade_out_sec.gfmt]
     else [])
  if filters ≠ [] then [("-af").data, joinComma filters] else []

/-- C7: the scenario blob parses into exactly the five stated values, and
the corrective-pass filter built from them carries
`measured_I=-20.1`, `measured_TP=-3.2`, `measured_LRA=5.0`,
`measured_thresh=-30.1`, `offset=0.4` verbatim (targets are the default
settings values `-16.0`, `-1.5` and `11.0`). -/
theorem c7_blob_verbatim :
    measure_loudness (some (("[Parsed_loudnorm_0] \x7b\"input_i\":-20.1,\"input_tp\":-3.2,\"input_lra\":5.0,\"input_thresh\":-30.1,\"target_offset\":0.4\x7d\n").data)) =
      some ⟨⟨-201, 1⟩, ⟨-32, 1⟩, ⟨50, 1⟩, ⟨-301, 1⟩, ⟨4, 1⟩⟩ ∧
    build_filters ⟨"/in/a.wav", "a.wav", 0, ⟨0, 1⟩⟩
      { normalize_loudness := true, normalize_mode := "two-pass" }
      (measure_loudness (some (("[Parsed_loudnorm_0] \x7b\"input_i\":-20.1,\"input_tp\":-3.2,\"input_lra\":5.0,\"input_thresh\":-30.1,\"target_offset\":0.4\x7d\n").data))) =
      [("-af").data,
       ("loudnorm=I=-16.0:TP=-1.5:LRA=11.0:measured_I=-20.1:measured_TP=-3.2:measured_LRA=5.0:measured_thresh=-30.1:offset=0.4:linear=true:print_format=summary").data] :=
  ⟨rfl, rfl⟩

/-- `Path.resolve()` modelled on path segments: `.` segments are removed
and `..` segments collapse onto their parent (at the root they stay at
the root).  Symlink chasing only matters for paths that alias through
links, which the claims' inputs do not exercise. -/
def resolveSegs (ps : List String) : List String :=
  (ps.foldl (fun acc seg =>
    if seg = "." then acc
    else if seg = ".." then acc.drop 1
    else seg :: acc) []).reverse

/-- Terminal outcome of `_run_one`'s pre-flight guards. -/
inductive JobOutcome where
  | skipped (msg : String)
  | failed (msg : String)
  | proceed
deriving DecidableEq, Repr

/-- `_run_one`'s pre-flight guard sequence (`gui.py` lines 394–416).  The
destination-exists/no-overwrite skip runs FIRST; only then is
`str(outp.resolve())` compared with `str(Path(af.path).resolve())` — a
string comparison of RESOLVED paths, which equates `.`-aliased spellings
of the same file.  (The auto-rename block at lines 406–413 repeats guard
one's condition after that guard has already returned, so it is
unreachable.)  `dstExists` is the filesystem's answer to
`outp.exists()`; `proceed` models reaching `process_file`. -/
def runOneGuard (srcPath outp : List String) (dstExists overwrite : Bool) :
    JobOutcome :=
  if dstExists ∧ overwrite = false then
    JobOutcome.skipped ("File exists, skipping")
  else if resolveSegs outp = resolveSegs srcPath then
    JobOutcome.failed ("Would overwrite source; refusing to process")
  else JobOutcome.proceed

/-- C8 (counterexample): for `src = /a/b.wav`, `dst = /a/./b.wav` — the
claim's own path-equivalent pair, whose resolutions coincide — with the
destination existing (it is the source) and overwrite DISABLED, the job is
Skipped by the exists-guard, not Failed by the self-overwrite guard: the
self-overwrite refusal is not reached on every such job. -/
theorem c8_counterexample :
    resolveSegs ["a", ".", "b.wav"] = resolveSegs ["a", "b.wav"] ∧
    runOneGuard ["a", "b.wav"] ["a", ".", "b.wav"] true false =
      JobOutcome.skipped ("File exists, skipping") :=
  ⟨rfl, rfl⟩

/-- C8 (amended): when the resolved output path equals the resolved source
path, the job is Failed with the refusing-self-overwrite message whenever
overwrite is enabled (or the destination does not yet exist); when
overwrite is disabled and the destination exists, the exists-skip fires
first and the job is Skipped instead. -/
theorem c8_selfoverwrite_guard (src dst : List String) (ex ow : Bool)
    (h : resolveSegs dst = resolveSegs src) :
    runOneGuard src dst ex ow =
      if ex ∧ ow = false then JobOutcome.skipped ("File exists, skipping")
      else JobOutcome.failed
        ("Would overwrite source; refusing to process") := by
  unfold runOneGuard
  by_cases hc : ex = true ∧ ow = false
  · rw [if_pos hc, if_pos hc]
  · rw [if_neg hc, if_neg hc, if_pos h]

/-- C8 (witness): the amended theorem at the claim's concrete example
with overwrite enabled — the guard fires and the job is Failed. -/
theorem c8_witness :
    runOneGuard ["a", "b.wav"] ["a", ".", "b.wav"] true true =
      JobOutcome.failed ("Would overwrite source; refusing to process") := by
  have h := c8_selfoverwrite_guard ["a", "b.wav"] ["a", ".", "b.wav"]
    true true rfl
  simpa using h
